import Mathlib

/-!
Verification of the p/Z material-balance regression engine in
src/GUI/GUI_Material_Balance.py (obasi28/Practical-Reservoir-Engineering-With-Python).

Shallow embedding conventions:
* Python/pandas floats are modelled by exact rationals (ℚ).
* A `ProductionRecord` is one row of the loaded table.  The field
  `cumProduction` models the cell after the best-effort numeric coercion
  `pd.to_numeric(..., errors=coerce)` of line 95: `some q` is a numeric
  cell, `none` is a non-numeric cell (coerced to NaN and later dropped by
  `dropna`).  `pressure` and `z` are modelled as rationals, matching the
  data model in which both columns parse as floats.
* The module-level globals `production_data`, `estimated_ogip_scf`,
  `slope`, `r_squared` (lines 10-14) form a `GlobalState`; the function
  `perform_regression_analysis` (lines 83-134) is embedded as a state
  transformer returning the new state together with an optional error,
  where each error constructor corresponds to one `messagebox.showerror`
  path of the source.
* The in-place mutation of lines 94-96 (adding the derived x, y columns
  and `dropna(..., inplace=True)`) is modelled on the record list by
  keeping exactly the rows whose `cumProduction` coerced successfully;
  the derived columns themselves are recomputed and overwritten on every
  invocation, so they are not carried in the state.
-/

/-- One row of the production table.  `cumProduction` is the value of the
CumProduction cell after numeric coercion: `none` models a non-numeric cell. -/
structure ProductionRecord where
  pressure : ℚ
  z : ℚ
  cumProduction : Option ℚ
deriving Repr, DecidableEq

/-- The loaded table, in file order (`production_data`). -/
abbrev Dataset := List ProductionRecord

/-- The three `messagebox.showerror` paths reachable from
`perform_regression_analysis`:
* `noData`: lines 87-89 (`production_data is None or production_data.empty`);
* `regressionError`: lines 101-103 (the Σx² = 0 degenerate branch);
* `calculationError`: lines 133-134 (the blanket `except` handler catching,
  in particular, the ZeroDivisionError raised at line 94 when the first
  record has Z = 0). -/
inductive RegError where
  | noData
  | regressionError
  | calculationError
deriving Repr, DecidableEq

/-- The module-level globals of lines 10-14 that the engine reads and writes
(`reg_canvas` is plotting plumbing and is not modelled). -/
structure GlobalState where
  production_data : Option Dataset
  estimated_ogip_scf : Option ℚ
  slope : Option ℚ
  r_squared : Option ℚ
deriving Repr, DecidableEq

/-- Line 94: the derived column
`x = (initial_pressure / initial_z) - (Pressure / Z)` for one row. -/
def xval (pi zi : ℚ) (r : ProductionRecord) : ℚ :=
  pi / zi - r.pressure / r.z

/-- Lines 94-95: the derived (x, y) columns over the whole table, with y the
coerced CumProduction value (`none` = NaN). -/
def toXY (pi zi : ℚ) (d : Dataset) : List (ℚ × Option ℚ) :=
  d.map (fun r => (xval pi zi r, r.cumProduction))

/-- Line 96, on the derived columns: `dropna(subset=[x, y])` keeps exactly the
rows whose y is numeric (x, a rational, is never NaN in this model). -/
def dropna (rows : List (ℚ × Option ℚ)) : List (ℚ × ℚ) :=
  rows.filterMap (fun row => row.2.map (fun y => (row.1, y)))

/-- Line 96, on the table itself: the rows surviving the in-place `dropna`. -/
def dropnaDataset (d : Dataset) : Dataset :=
  d.filter (fun r => r.cumProduction.isSome)

/-- The transform step as a function of the dataset alone: reference pressure
and Z-factor are taken from the first record (lines 92-93), then the (x, y)
columns of lines 94-95 are computed for every record. -/
def engineTransform (d : Dataset) : List (ℚ × Option ℚ) :=
  match d with
  | [] => []
  | first :: _ => toXY first.pressure first.z d

/-- `np.sum(x**2)` (lines 101, 105). -/
def sumXX (pts : List (ℚ × ℚ)) : ℚ :=
  (pts.map (fun p => p.1 ^ 2)).sum

/-- `np.sum(x * y)` (line 105). -/
def sumXY (pts : List (ℚ × ℚ)) : ℚ :=
  (pts.map (fun p => p.1 * p.2)).sum

/-- Line 105: `slope = np.sum(x * y) / np.sum(x**2)`. -/
def fitSlope (pts : List (ℚ × ℚ)) : ℚ :=
  sumXY pts / sumXX pts

/-- `np.mean(y)` (line 110). -/
def meanY (pts : List (ℚ × ℚ)) : ℚ :=
  (pts.map Prod.snd).sum / (pts.length : ℚ)

/-- Lines 107-109: `ss_res = np.sum((y - slope * x)**2)`. -/
def ssRes (s : ℚ) (pts : List (ℚ × ℚ)) : ℚ :=
  (pts.map (fun p => (p.2 - s * p.1) ^ 2)).sum

/-- Line 110: `ss_tot = np.sum((y - np.mean(y))**2)`. -/
def ssTot (pts : List (ℚ × ℚ)) : ℚ :=
  (pts.map (fun p => (p.2 - meanY pts) ^ 2)).sum

/-- Line 111: `r_squared = 1 - ss_res / ss_tot if ss_tot != 0 else 0`. -/
def rSquaredOf (s : ℚ) (pts : List (ℚ × ℚ)) : ℚ :=
  if ssTot pts ≠ 0 then 1 - ssRes s pts / ssTot pts else 0

/-- Lines 83-134, `perform_regression_analysis`, as a state transformer.
The returned `Option RegError` is `none` on the success path (the
`messagebox.showinfo` of line 113) and `some e` on each error path.
Plotting (lines 118-131) is presentation plumbing and is not modelled.
Note that the first record Z = 0 check models the ZeroDivisionError raised
by `initial_pressure / initial_z` at line 94 before any column is assigned,
caught by the blanket handler of lines 133-134: in that path the table is
not yet mutated. -/
def perform_regression_analysis (st : GlobalState) : GlobalState × Option RegError :=
  match st.production_data with
  | none => (st, some RegError.noData)
  | some d =>
    match d with
    | [] => (st, some RegError.noData)
    | first :: _ =>
      if first.z = 0 then
        (st, some RegError.calculationError)
      else
        let initial_pressure := first.pressure
        let initial_z := first.z
        let pts := dropna (toXY initial_pressure initial_z d)
        let st1 : GlobalState := { st with production_data := some (dropnaDataset d) }
        if sumXX pts = 0 then
          (st1, some RegError.regressionError)
        else
          let s := fitSlope pts
          ({ st1 with
              slope := some s,
              estimated_ogip_scf := some (s * initial_pressure),
              r_squared := some (rSquaredOf s pts) }, none)

/-- Lines 136-156, `save_report`: with no prior result (`estimated_ogip_scf is
None`) it reports an error (`none` here); otherwise it serializes the three
current globals as a two-column (Parameter, Value) table in fixed row order.
File dialogs and Excel output are presentation plumbing. -/
def save_report (st : GlobalState) : Option (List (String × Option ℚ)) :=
  match st.estimated_ogip_scf with
  | none => none
  | some _ =>
      some [("Regression Slope (scf/psia)", st.slope),
            ("Estimated OGIP (scf)", st.estimated_ogip_scf),
            ("R-Squared", st.r_squared)]

/-- Σy², used only to expand the residual sum of squares in proofs. -/
def sumYY (pts : List (ℚ × ℚ)) : ℚ :=
  (pts.map (fun p => p.2 ^ 2)).sum

/-- A table whose first CumProduction cell is non-numeric: the in-place
`dropna` of line 96 removes the reference row itself. -/
def droppedFirstRowState : GlobalState :=
  { production_data := some [⟨3000, 1, none⟩, ⟨2000, 1, some 1000⟩, ⟨1000, 1, some 1500⟩],
    estimated_ogip_scf := none, slope := none, r_squared := none }

/-- The same table with the non-numeric row removed by hand before loading. -/
def preFilteredState : GlobalState :=
  { production_data := some [⟨2000, 1, some 1000⟩, ⟨1000, 1, some 1500⟩],
    estimated_ogip_scf := none, slope := none, r_squared := none }

/-- A table with a numeric first row and one non-numeric row in the middle. -/
def midBadRowState : GlobalState :=
  { production_data := some [⟨3000, 1, some 1000⟩, ⟨2000, 1, none⟩, ⟨1000, 1, some 1500⟩],
    estimated_ogip_scf := none, slope := none, r_squared := none }

/-- A table whose first record has pressure = 0 (Z-factor normal). -/
def zeroPressureState : GlobalState :=
  { production_data := some [⟨0, 1, some 5⟩, ⟨100, 1, some 7⟩],
    estimated_ogip_scf := none, slope := none, r_squared := none }

section Lemmas

lemma sumXX_nonneg (pts : List (ℚ × ℚ)) : 0 ≤ sumXX pts := by
  refine List.sum_nonneg ?_
  intro a ha
  simp only [List.mem_map] at ha
  obtain ⟨p, _, rfl⟩ := ha
  exact sq_nonneg p.1

lemma ssRes_expand (s : ℚ) (pts : List (ℚ × ℚ)) :
    ssRes s pts = sumYY pts - 2 * s * sumXY pts + s ^ 2 * sumXX pts := by
  induction pts with
  | nil => simp [ssRes, sumYY, sumXY, sumXX]
  | cons p l ih =>
    simp only [ssRes, sumYY, sumXY, sumXX, List.map_cons, List.sum_cons] at ih ⊢
    rw [ih]
    ring

lemma ssRes_min_decomp (pts : List (ℚ × ℚ)) (h : sumXX pts ≠ 0) (s : ℚ) :
    ssRes s pts = ssRes (fitSlope pts) pts + sumXX pts * (s - fitSlope pts) ^ 2 := by
  rw [ssRes_expand, ssRes_expand, fitSlope]
  field_simp
  ring

lemma sum_sq_eq_zero_iff (l : List ℚ) :
    (l.map (fun a => a ^ 2)).sum = 0 ↔ ∀ a ∈ l, a = 0 := by
  induction l with
  | nil => simp
  | cons x l ih =>
    simp only [List.map_cons, List.sum_cons, List.mem_cons]
    constructor
    · intro h
      have hx : 0 ≤ x ^ 2 := sq_nonneg x
      have hl : 0 ≤ (l.map (fun a => a ^ 2)).sum := by
        refine List.sum_nonneg ?_
        intro a ha
        simp only [List.mem_map] at ha
        obtain ⟨b, _, rfl⟩ := ha
        exact sq_nonneg b
      have hx0 : x ^ 2 = 0 := by linarith
      have hl0 : (l.map (fun a => a ^ 2)).sum = 0 := by linarith
      refine fun a ha => ha.elim (fun h1 => ?_) (fun h2 => ih.mp hl0 a h2)
      subst h1
      exact pow_eq_zero_iff two_ne_zero |>.mp hx0
    · intro h
      have hx0 : x = 0 := h x (Or.inl rfl)
      have hl0 : (l.map (fun a => a ^ 2)).sum = 0 := ih.mpr fun a ha => h a (Or.inr ha)
      simp [hx0, hl0]

lemma ssTot_eq_zero_iff (pts : List (ℚ × ℚ)) :
    ssTot pts = 0 ↔ ∀ p ∈ pts, p.2 = meanY pts := by
  have h : ssTot pts = ((pts.map (fun p => p.2 - meanY pts)).map (fun a => a ^ 2)).sum := by
    simp [ssTot, List.map_map, Function.comp_def]
  rw [h, sum_sq_eq_zero_iff]
  constructor
  · intro h p hp
    have := h (p.2 - meanY pts) (List.mem_map_of_mem _ hp)
    linarith
  · intro h a ha
    simp only [List.mem_map] at ha
    obtain ⟨p, hp, rfl⟩ := ha
    have := h p hp
    linarith

end Lemmas

/-- Claim C1: for every transformed point sequence with Σx² > 0, the fit step
(line 105) returns slope = Σ(x·y) / Σ(x²), and this is the unique value
minimizing Σ(y − slope·x)² for the origin-constrained model y = slope·x. -/
theorem fitSlope_unique_least_squares (pts : List (ℚ × ℚ)) (h : 0 < sumXX pts) :
    fitSlope pts = sumXY pts / sumXX pts ∧
    ∀ s : ℚ, ssRes (fitSlope pts) pts ≤ ssRes s pts ∧
      (ssRes s pts = ssRes (fitSlope pts) pts → s = fitSlope pts) := by
  have hne : sumXX pts ≠ 0 := ne_of_gt h
  refine ⟨rfl, fun s => ?_⟩
  have hd := ssRes_min_decomp pts hne s
  have hsq : 0 ≤ sumXX pts * (s - fitSlope pts) ^ 2 :=
    mul_nonneg (le_of_lt h) (sq_nonneg _)
  constructor
  · linarith
  · intro he
    have h0 : sumXX pts * (s - fitSlope pts) ^ 2 = 0 := by linarith
    rcases mul_eq_zero.mp h0 with h1 | h2
    · exact absurd h1 hne
    · have := pow_eq_zero_iff two_ne_zero |>.mp h2
      have : s = fitSlope pts := by linarith
      exact this

/-- Witness for C1 at the concrete point list [(1, 2), (2, 3)] and the
competing slope 7. -/
theorem fitSlope_unique_least_squares_witness :
    fitSlope [((1 : ℚ), (2 : ℚ)), ((2 : ℚ), (3 : ℚ))] =
      sumXY [((1 : ℚ), (2 : ℚ)), ((2 : ℚ), (3 : ℚ))] /
        sumXX [((1 : ℚ), (2 : ℚ)), ((2 : ℚ), (3 : ℚ))] ∧
    ssRes (fitSlope [((1 : ℚ), (2 : ℚ)), ((2 : ℚ), (3 : ℚ))])
        [((1 : ℚ), (2 : ℚ)), ((2 : ℚ), (3 : ℚ))] ≤
      ssRes 7 [((1 : ℚ), (2 : ℚ)), ((2 : ℚ), (3 : ℚ))] :=
  ⟨(fitSlope_unique_least_squares [((1 : ℚ), (2 : ℚ)), ((2 : ℚ), (3 : ℚ))]
      (by norm_num [sumXX])).1,
   ((fitSlope_unique_least_squares [((1 : ℚ), (2 : ℚ)), ((2 : ℚ), (3 : ℚ))]
      (by norm_num [sumXX])).2 7).1⟩

/-- Claim C2: for every non-empty dataset, the transform takes the reference
pressure and Z-factor from the first record in dataset order, produces one
point per record, and computes x = (p_i / z_i) − (pressure / z_factor) and
y = the coerced CumProduction value for every record. -/
theorem engineTransform_first_record_reference (d : Dataset) (first : ProductionRecord)
    (rest : Dataset) (hd : d = first :: rest) :
    (engineTransform d).length = d.length ∧
    engineTransform d =
      d.map (fun r => (first.pressure / first.z - r.pressure / r.z, r.cumProduction)) := by
  subst hd
  exact ⟨by simp [engineTransform, toXY], rfl⟩

/-- Witness for C2 at a concrete two-row dataset. -/
theorem engineTransform_first_record_reference_witness :
    (engineTransform [⟨3000, 1, some 1⟩, ⟨2000, 1, some 2⟩]).length =
      ([⟨3000, 1, some 1⟩, ⟨2000, 1, some 2⟩] : Dataset).length ∧
    engineTransform [⟨3000, 1, some 1⟩, ⟨2000, 1, some 2⟩] =
      ([⟨3000, 1, some 1⟩, ⟨2000, 1, some 2⟩] : Dataset).map
        (fun r => ((⟨3000, 1, some 1⟩ : ProductionRecord).pressure /
            (⟨3000, 1, some 1⟩ : ProductionRecord).z - r.pressure / r.z, r.cumProduction)) :=
  engineTransform_first_record_reference [⟨3000, 1, some 1⟩, ⟨2000, 1, some 2⟩]
    ⟨3000, 1, some 1⟩ [⟨2000, 1, some 2⟩] rfl

/-- Claim C3: for every successful regression invocation, the reported OGIP
equals slope × p_i, where p_i is the initial pressure taken from the first
record by the transform step (line 106). -/
theorem ogip_eq_slope_mul_initial_pressure (st : GlobalState) (d : Dataset)
    (first : ProductionRecord) (rest : Dataset)
    (hdata : st.production_data = some d) (hd : d = first :: rest)
    (hsucc : (perform_regression_analysis st).2 = none) :
    (perform_regression_analysis st).1.slope.isSome ∧
    (perform_regression_analysis st).1.estimated_ogip_scf =
      Option.map (fun s => s * first.pressure) (perform_regression_analysis st).1.slope := by
  subst hd
  simp only [perform_regression_analysis, hdata] at hsucc ⊢
  by_cases hz : first.z = 0
  · simp [hz] at hsucc
  · simp only [if_neg hz] at hsucc ⊢
    by_cases hx : sumXX (dropna (toXY first.pressure first.z (first :: rest))) = 0
    · simp [hx] at hsucc
    · simp only [if_neg hx]
      exact ⟨rfl, rfl⟩

/-- Witness for C3 at a concrete two-row dataset on the success path. -/
theorem ogip_eq_slope_mul_initial_pressure_witness :
    (perform_regression_analysis
      { production_data := some [⟨3000, 1, some 1⟩, ⟨2000, 1, some 2⟩],
        estimated_ogip_scf := none, slope := none, r_squared := none }).1.slope.isSome ∧
    (perform_regression_analysis
      { production_data := some [⟨3000, 1, some 1⟩, ⟨2000, 1, some 2⟩],
        estimated_ogip_scf := none, slope := none, r_squared := none }).1.estimated_ogip_scf =
      Option.map (fun s => s * (3000 : ℚ))
        (perform_regression_analysis
          { production_data := some [⟨3000, 1, some 1⟩, ⟨2000, 1, some 2⟩],
            estimated_ogip_scf := none, slope := none, r_squared := none }).1.slope :=
  ogip_eq_slope_mul_initial_pressure
    { production_data := some [⟨3000, 1, some 1⟩, ⟨2000, 1, some 2⟩],
      estimated_ogip_scf := none, slope := none, r_squared := none }
    [⟨3000, 1, some 1⟩, ⟨2000, 1, some 2⟩] ⟨3000, 1, some 1⟩ [⟨2000, 1, some 2⟩] rfl rfl
    (by norm_num [perform_regression_analysis, toXY, xval, dropna, dropnaDataset, fitSlope,
      sumXX, sumXY, rSquaredOf, ssRes, ssTot, meanY, List.filterMap_cons, List.filterMap_nil,
      List.filter])

/-- Claim C4: for every fit that proceeds (success path), r_squared is
1 − SS_res/SS_tot with SS_res = Σ(y − slope·x)² and SS_tot = Σ(y − ȳ)² against
the sample mean of y, and it is 0 instead whenever SS_tot = 0, which happens
exactly when all surviving y values are identical (equal to their mean). -/
theorem r_squared_mean_based_convention (st : GlobalState) (d : Dataset)
    (first : ProductionRecord) (rest : Dataset)
    (hdata : st.production_data = some d) (hd : d = first :: rest)
    (hsucc : (perform_regression_analysis st).2 = none) :
    (perform_regression_analysis st).1.r_squared =
      some (if ssTot (dropna (toXY first.pressure first.z d)) = 0 then 0
            else 1 - ssRes (fitSlope (dropna (toXY first.pressure first.z d)))
                (dropna (toXY first.pressure first.z d)) /
              ssTot (dropna (toXY first.pressure first.z d))) ∧
    (ssTot (dropna (toXY first.pressure first.z d)) = 0 ↔
      ∀ p ∈ dropna (toXY first.pressure first.z d),
        p.2 = meanY (dropna (toXY first.pressure first.z d))) := by
  subst hd
  refine ⟨?_, ssTot_eq_zero_iff _⟩
  simp only [perform_regression_analysis, hdata] at hsucc ⊢
  by_cases hz : first.z = 0
  · simp [hz] at hsucc
  · simp only [if_neg hz] at hsucc ⊢
    by_cases hx : sumXX (dropna (toXY first.pressure first.z (first :: rest))) = 0
    · simp [hx] at hsucc
    · simp only [if_neg hx]
      rw [rSquaredOf]
      by_cases ht : ssTot (dropna (toXY first.pressure first.z (first :: rest))) = 0
      · simp [ht]
      · simp [ht]

/-- Witness for C4 at a concrete two-row dataset on the success path. -/
theorem r_squared_mean_based_convention_witness :
    (perform_regression_analysis
      { production_data := some [⟨3000, 1, some 1⟩, ⟨2000, 1, some 2⟩],
        estimated_ogip_scf := none, slope := none, r_squared := none }).1.r_squared =
      some (if ssTot (dropna (toXY 3000 1 [⟨3000, 1, some 1⟩, ⟨2000, 1, some 2⟩])) = 0 then 0
            else 1 - ssRes (fitSlope (dropna (toXY 3000 1 [⟨3000, 1, some 1⟩, ⟨2000, 1, some 2⟩])))
                (dropna (toXY 3000 1 [⟨3000, 1, some 1⟩, ⟨2000, 1, some 2⟩])) /
              ssTot (dropna (toXY 3000 1 [⟨3000, 1, some 1⟩, ⟨2000, 1, some 2⟩]))) ∧
    (ssTot (dropna (toXY 3000 1 [⟨3000, 1, some 1⟩, ⟨2000, 1, some 2⟩])) = 0 ↔
      ∀ p ∈ dropna (toXY 3000 1 [⟨3000, 1, some 1⟩, ⟨2000, 1, some 2⟩]),
        p.2 = meanY (dropna (toXY 3000 1 [⟨3000, 1, some 1⟩, ⟨2000, 1, some 2⟩]))) :=
  r_squared_mean_based_convention
    { production_data := some [⟨3000, 1, some 1⟩, ⟨2000, 1, some 2⟩],
      estimated_ogip_scf := none, slope := none, r_squared := none }
    [⟨3000, 1, some 1⟩, ⟨2000, 1, some 2⟩] ⟨3000, 1, some 1⟩ [⟨2000, 1, some 2⟩] rfl rfl
    (by norm_num [perform_regression_analysis, toXY, xval, dropna, dropnaDataset, fitSlope,
      sumXX, sumXY, rSquaredOf, ssRes, ssTot, meanY, List.filterMap_cons, List.filterMap_nil,
      List.filter])

/-- Claim C5: whenever the surviving transformed points have Σx² = 0, the
engine reports the dedicated degenerate-regression error (the distinct
Regression Error branch of lines 101-103), does not signal success, and does
not store a slope of 0 or an R² of 0 (the result globals are not written). -/
theorem degenerate_sum_reports_regression_error (st : GlobalState) (d : Dataset)
    (first : ProductionRecord) (rest : Dataset)
    (hdata : st.production_data = some d) (hd : d = first :: rest) (hz : first.z ≠ 0)
    (hdeg : sumXX (dropna (toXY first.pressure first.z d)) = 0) :
    (perform_regression_analysis st).2 = some RegError.regressionError ∧
    (perform_regression_analysis st).2 ≠ none ∧
    (perform_regression_analysis st).1.slope = st.slope ∧
    (perform_regression_analysis st).1.r_squared = st.r_squared := by
  subst hd
  simp only [perform_regression_analysis, hdata, if_neg hz, if_pos hdeg]
  simp

/-- Witness for C5 at a concrete flat dataset (both rows have the same
pressure over Z as the first row, so every x is 0). -/
theorem degenerate_sum_reports_regression_error_witness :
    (perform_regression_analysis
      { production_data := some [⟨3000, 1, some 1⟩, ⟨3000, 1, some 2⟩],
        estimated_ogip_scf := none, slope := none, r_squared := none }).2 =
      some RegError.regressionError ∧
    (perform_regression_analysis
      { production_data := some [⟨3000, 1, some 1⟩, ⟨3000, 1, some 2⟩],
        estimated_ogip_scf := none, slope := none, r_squared := none }).2 ≠ none ∧
    (perform_regression_analysis
      { production_data := some [⟨3000, 1, some 1⟩, ⟨3000, 1, some 2⟩],
        estimated_ogip_scf := none, slope := none, r_squared := none }).1.slope = none ∧
    (perform_regression_analysis
      { production_data := some [⟨3000, 1, some 1⟩, ⟨3000, 1, some 2⟩],
        estimated_ogip_scf := none, slope := none, r_squared := none }).1.r_squared = none :=
  degenerate_sum_reports_regression_error
    { production_data := some [⟨3000, 1, some 1⟩, ⟨3000, 1, some 2⟩],
      estimated_ogip_scf := none, slope := none, r_squared := none }
    [⟨3000, 1, some 1⟩, ⟨3000, 1, some 2⟩] ⟨3000, 1, some 1⟩ [⟨3000, 1, some 2⟩] rfl rfl
    (by norm_num)
    (by norm_num [sumXX, dropna, toXY, xval, List.filterMap_cons, List.filterMap_nil])

/-- Counterexample to claim C6: on a dataset whose first record has
pressure = 0 (and a normal Z-factor), the engine does not fail at all — it
proceeds to a successful regression, contradicting the claim that a zero
first-record pressure triggers a MissingReferenceError. -/
theorem zero_initial_pressure_proceeds_without_error :
    (perform_regression_analysis zeroPressureState).2 = none ∧
    (perform_regression_analysis zeroPressureState).1.slope = some (-(7 / 100)) := by
  norm_num [zeroPressureState, perform_regression_analysis, toXY, xval, dropna, dropnaDataset,
    fitSlope, sumXX, sumXY, rSquaredOf, ssRes, ssTot, meanY, List.filterMap_cons,
    List.filterMap_nil, List.filter]

/-- Claim C6 amended: there is no dedicated missing-reference error.  If the
first record has Z-factor 0, the division at line 94 raises and is caught by
the blanket handler of lines 133-134, so the engine fails with the generic
calculation error and leaves the whole state unchanged; if only the first
record pressure is 0, the transform proceeds without failing. -/
theorem zero_initial_z_generic_calculation_error (st : GlobalState) (d : Dataset)
    (first : ProductionRecord) (rest : Dataset)
    (hdata : st.production_data = some d) (hd : d = first :: rest) (hz : first.z = 0) :
    perform_regression_analysis st = (st, some RegError.calculationError) := by
  subst hd
  simp [perform_regression_analysis, hdata, hz]

/-- Witness for the amended C6 at a concrete dataset whose first record has
Z = 0. -/
theorem zero_initial_z_generic_calculation_error_witness :
    perform_regression_analysis
      { production_data := some [⟨3000, 0, some 1⟩, ⟨2000, 1, some 2⟩],
        estimated_ogip_scf := none, slope := none, r_squared := none } =
      ({ production_data := some [⟨3000, 0, some 1⟩, ⟨2000, 1, some 2⟩],
         estimated_ogip_scf := none, slope := none, r_squared := none },
       some RegError.calculationError) :=
  zero_initial_z_generic_calculation_error
    { production_data := some [⟨3000, 0, some 1⟩, ⟨2000, 1, some 2⟩],
      estimated_ogip_scf := none, slope := none, r_squared := none }
    [⟨3000, 0, some 1⟩, ⟨2000, 1, some 2⟩] ⟨3000, 0, some 1⟩ [⟨2000, 1, some 2⟩] rfl rfl rfl

/-- Claim C7 (evidence): the engine is not pure in its input dataset.  On a
concrete three-row table with one non-numeric CumProduction cell, the
invocation rewrites the module-level dataset in place: afterwards it holds
two records instead of the original three (lines 94-96,
`dropna(..., inplace=True)` on the shared `production_data`). -/
theorem perform_mutates_input_dataset :
    (perform_regression_analysis midBadRowState).1.production_data =
      some [⟨3000, 1, some 1000⟩, ⟨1000, 1, some 1500⟩] ∧
    (perform_regression_analysis midBadRowState).1.production_data ≠
      midBadRowState.production_data := by
  constructor <;>
    norm_num [midBadRowState, perform_regression_analysis, toXY, xval, dropna, dropnaDataset,
      fitSlope, sumXX, sumXY, rSquaredOf, ssRes, ssTot, meanY, List.filterMap_cons,
      List.filterMap_nil, List.filter, ProductionRecord.mk.injEq]

lemma dropna_toXY (pi zi : ℚ) (d : Dataset) :
    dropna (toXY pi zi d) =
      (dropnaDataset d).map (fun r => (xval pi zi r, r.cumProduction.getD 0)) := by
  induction d with
  | nil => rfl
  | cons r l ih =>
    cases hr : r.cumProduction with
    | none =>
      simpa [dropna, toXY, dropnaDataset, List.filterMap_cons, List.filter_cons, hr] using ih
    | some y =>
      simpa [dropna, toXY, dropnaDataset, List.filterMap_cons, List.filter_cons, hr] using ih

lemma dropnaDataset_idem (d : Dataset) :
    dropnaDataset (dropnaDataset d) = dropnaDataset d := by
  induction d with
  | nil => rfl
  | cons r l ih =>
    cases hr : r.cumProduction with
    | none => simp [dropnaDataset, List.filter_cons, hr, ih]
    | some y => simp [dropnaDataset, List.filter_cons, hr, ih]

lemma dropnaDataset_cons_some (first : ProductionRecord) (rest : Dataset)
    (h : first.cumProduction.isSome) :
    dropnaDataset (first :: rest) = first :: dropnaDataset rest := by
  simp [dropnaDataset, List.filter_cons, h]

lemma perform_eq_of_cons (st : GlobalState) (first : ProductionRecord) (rest : Dataset)
    (hdata : st.production_data = some (first :: rest)) (hz : first.z ≠ 0) :
    perform_regression_analysis st =
      if sumXX (dropna (toXY first.pressure first.z (first :: rest))) = 0 then
        ({ st with production_data := some (dropnaDataset (first :: rest)) },
         some RegError.regressionError)
      else
        ({ st with
            production_data := some (dropnaDataset (first :: rest)),
            slope := some (fitSlope (dropna (toXY first.pressure first.z (first :: rest)))),
            estimated_ogip_scf :=
              some (fitSlope (dropna (toXY first.pressure first.z (first :: rest))) *
                first.pressure),
            r_squared :=
              some (rSquaredOf (fitSlope (dropna (toXY first.pressure first.z (first :: rest))))
                (dropna (toXY first.pressure first.z (first :: rest)))) }, none) := by
  by_cases hx : sumXX (dropna (toXY first.pressure first.z (first :: rest))) = 0
  · simp [perform_regression_analysis, hdata, hz, hx]
  · simp [perform_regression_analysis, hdata, hz, hx]

/-- Counterexample to claim C8: when the first CumProduction cell is
non-numeric, the first invocation drops the reference row from the shared
dataset, so a second invocation on the (caller-unmodified) dataset uses a
different reference record and reports a different slope (3/2 instead of
4/5). -/
theorem second_invocation_changes_slope :
    (perform_regression_analysis
        (perform_regression_analysis droppedFirstRowState).1).1.slope ≠
      (perform_regression_analysis droppedFirstRowState).1.slope := by
  norm_num [droppedFirstRowState, perform_regression_analysis, toXY, xval, dropna,
    dropnaDataset, fitSlope, sumXX, sumXY, rSquaredOf, ssRes, ssTot, meanY,
    List.filterMap_cons, List.filterMap_nil, List.filter]

/-- Claim C8 amended: invoking the engine twice on a dataset the caller did
not modify between the calls yields identical results (slope, ogip,
r_squared, and reported error) provided the first record CumProduction cell
is numeric, so that the in-place dropna of the first invocation does not
remove the reference row.  (The counterexample shows the claim fails when
the first row is dropped.) -/
theorem repeat_invocation_identical_when_first_row_survives (st : GlobalState)
    (d : Dataset) (first : ProductionRecord) (rest : Dataset)
    (hdata : st.production_data = some d) (hd : d = first :: rest)
    (hfirst : first.cumProduction.isSome) :
    (perform_regression_analysis (perform_regression_analysis st).1).1.slope =
      (perform_regression_analysis st).1.slope ∧
    (perform_regression_analysis (perform_regression_analysis st).1).1.estimated_ogip_scf =
      (perform_regression_analysis st).1.estimated_ogip_scf ∧
    (perform_regression_analysis (perform_regression_analysis st).1).1.r_squared =
      (perform_regression_analysis st).1.r_squared ∧
    (perform_regression_analysis (perform_regression_analysis st).1).2 =
      (perform_regression_analysis st).2 := by
  subst hd
  by_cases hz : first.z = 0
  · have h1 : perform_regression_analysis st = (st, some RegError.calculationError) := by
      simp [perform_regression_analysis, hdata, hz]
    simp [h1]
  · have hcons : dropnaDataset (first :: rest) = first :: dropnaDataset rest :=
      dropnaDataset_cons_some first rest hfirst
    have h1 := perform_eq_of_cons st first rest hdata hz
    have hpts : dropna (toXY first.pressure first.z (first :: dropnaDataset rest)) =
        dropna (toXY first.pressure first.z (first :: rest)) := by
      rw [← hcons, dropna_toXY, dropna_toXY, dropnaDataset_idem]
    by_cases hx : sumXX (dropna (toXY first.pressure first.z (first :: rest))) = 0
    · rw [if_pos hx] at h1
      have hdata2 :
          ({ st with production_data := some (dropnaDataset (first :: rest)) } :
            GlobalState).production_data = some (first :: dropnaDataset rest) := by
        simp [hcons]
      have h2 := perform_eq_of_cons _ first (dropnaDataset rest) hdata2 hz
      rw [hpts, if_pos hx] at h2
      rw [h1]
      simp [h2]
    · rw [if_neg hx] at h1
      have hdata2 :
          ({ st with
              production_data := some (dropnaDataset (first :: rest)),
              slope := some (fitSlope (dropna (toXY first.pressure first.z (first :: rest)))),
              estimated_ogip_scf :=
                some (fitSlope (dropna (toXY first.pressure first.z (first :: rest))) *
                  first.pressure),
              r_squared :=
                some (rSquaredOf
                  (fitSlope (dropna (toXY first.pressure first.z (first :: rest))))
                  (dropna (toXY first.pressure first.z (first :: rest)))) } :
            GlobalState).production_data = some (first :: dropnaDataset rest) := by
        simp [hcons]
      have h2 := perform_eq_of_cons _ first (dropnaDataset rest) hdata2 hz
      rw [hpts, if_neg hx] at h2
      rw [h1]
      simp [h2]

/-- Witness for the amended C8 at a concrete all-numeric dataset. -/
theorem repeat_invocation_identical_when_first_row_survives_witness :
    (perform_regression_analysis (perform_regression_analysis
        { production_data := some [⟨3000, 1, some 1⟩, ⟨2000, 1, some 2⟩],
          estimated_ogip_scf := none, slope := none, r_squared := none }).1).1.slope =
      (perform_regression_analysis
        { production_data := some [⟨3000, 1, some 1⟩, ⟨2000, 1, some 2⟩],
          estimated_ogip_scf := none, slope := none, r_squared := none }).1.slope ∧
    (perform_regression_analysis (perform_regression_analysis
        { production_data := some [⟨3000, 1, some 1⟩, ⟨2000, 1, some 2⟩],
          estimated_ogip_scf := none, slope := none, r_squared := none }).1).1.estimated_ogip_scf =
      (perform_regression_analysis
        { production_data := some [⟨3000, 1, some 1⟩, ⟨2000, 1, some 2⟩],
          estimated_ogip_scf := none, slope := none, r_squared := none }).1.estimated_ogip_scf ∧
    (perform_regression_analysis (perform_regression_analysis
        { production_data := some [⟨3000, 1, some 1⟩, ⟨2000, 1, some 2⟩],
          estimated_ogip_scf := none, slope := none, r_squared := none }).1).1.r_squared =
      (perform_regression_analysis
        { production_data := some [⟨3000, 1, some 1⟩, ⟨2000, 1, some 2⟩],
          estimated_ogip_scf := none, slope := none, r_squared := none }).1.r_squared ∧
    (perform_regression_analysis (perform_regression_analysis
        { production_data := some [⟨3000, 1, some 1⟩, ⟨2000, 1, some 2⟩],
          estimated_ogip_scf := none, slope := none, r_squared := none }).1).2 =
      (perform_regression_analysis
        { production_data := some [⟨3000, 1, some 1⟩, ⟨2000, 1, some 2⟩],
          estimated_ogip_scf := none, slope := none, r_squared := none }).2 :=
  repeat_invocation_identical_when_first_row_survives
    { production_data := some [⟨3000, 1, some 1⟩, ⟨2000, 1, some 2⟩],
      estimated_ogip_scf := none, slope := none, r_squared := none }
    [⟨3000, 1, some 1⟩, ⟨2000, 1, some 2⟩] ⟨3000, 1, some 1⟩ [⟨2000, 1, some 2⟩] rfl rfl rfl

/-- Counterexample to claim C9: when the single non-numeric CumProduction row
is the FIRST row, pre-filtering changes the reference record (p_i, z_i), so
the regression results differ from running on the unfiltered dataset: slope
4/5 against 3/2 on the concrete tables. -/
theorem prefiltering_changes_results_when_bad_row_first :
    (perform_regression_analysis droppedFirstRowState).1.slope ≠
      (perform_regression_analysis preFilteredState).1.slope := by
  norm_num [droppedFirstRowState, preFilteredState, perform_regression_analysis, toXY, xval,
    dropna, dropnaDataset, fitSlope, sumXX, sumXY, rSquaredOf, ssRes, ssTot, meanY,
    List.filterMap_cons, List.filterMap_nil, List.filter]

/-- Transform-plus-filter output length equals the filtered table length,
for any non-empty table. -/
lemma dropna_engineTransform_length (r : ProductionRecord) (l : Dataset) :
    (dropna (engineTransform (r :: l))).length = (dropnaDataset (r :: l)).length := by
  rw [show engineTransform (r :: l) = toXY r.pressure r.z (r :: l) from rfl, dropna_toXY]
  simp

/-- Claim C9 amended: for a dataset with exactly one non-numeric
CumProduction row, wherever that row sits (first position included), the
transformed point sequence surviving the filter has exactly one fewer entry
than the input has rows; and provided that row is not the first record, the
regression results (slope, ogip, r_squared, and reported error) are
identical to running the engine on the dataset with that row removed
beforehand.  (The counterexample shows the results part fails when the
non-numeric row is the first record.) -/
theorem exclusion_one_fewer_entry_and_prefilter_equivalence (bad : ProductionRecord)
    (d1 d2 : Dataset) (g1 g2 g3 : Option ℚ)
    (h1 : ∀ r ∈ d1, r.cumProduction.isSome = true)
    (h2 : ∀ r ∈ d2, r.cumProduction.isSome = true)
    (hbad : bad.cumProduction = none) :
    (dropna (engineTransform (d1 ++ bad :: d2))).length + 1 = (d1 ++ bad :: d2).length ∧
    ∀ first : ProductionRecord, ∀ d1x : Dataset, d1 = first :: d1x →
      (perform_regression_analysis ⟨some (d1 ++ bad :: d2), g1, g2, g3⟩).1.slope =
        (perform_regression_analysis ⟨some (d1 ++ d2), g1, g2, g3⟩).1.slope ∧
      (perform_regression_analysis ⟨some (d1 ++ bad :: d2), g1, g2, g3⟩).1.estimated_ogip_scf =
        (perform_regression_analysis ⟨some (d1 ++ d2), g1, g2, g3⟩).1.estimated_ogip_scf ∧
      (perform_regression_analysis ⟨some (d1 ++ bad :: d2), g1, g2, g3⟩).1.r_squared =
        (perform_regression_analysis ⟨some (d1 ++ d2), g1, g2, g3⟩).1.r_squared ∧
      (perform_regression_analysis ⟨some (d1 ++ bad :: d2), g1, g2, g3⟩).2 =
        (perform_regression_analysis ⟨some (d1 ++ d2), g1, g2, g3⟩).2 := by
  have hdrop : dropnaDataset (d1 ++ bad :: d2) = d1 ++ d2 := by
    simp [dropnaDataset, List.filter_append, List.filter_cons, hbad,
      List.filter_eq_self.mpr h1, List.filter_eq_self.mpr h2]
  constructor
  · rcases d1 with _ | ⟨r0, d1x⟩
    · simp only [List.nil_append] at hdrop ⊢
      rw [dropna_engineTransform_length, hdrop]
      simp
    · simp only [List.cons_append] at hdrop ⊢
      rw [dropna_engineTransform_length, hdrop]
      simp [List.length_append]
      omega
  · intro first d1x hd1
    subst hd1
    have hfirst : first.cumProduction.isSome = true := h1 first (by simp)
    have h1x : ∀ r ∈ d1x, r.cumProduction.isSome = true := fun r hr => h1 r (by simp [hr])
    simp only [List.cons_append] at hdrop ⊢
    have hpre : dropnaDataset (first :: (d1x ++ d2)) = first :: (d1x ++ d2) := by
      simp [dropnaDataset, List.filter_cons, List.filter_append, hfirst,
        List.filter_eq_self.mpr h1x, List.filter_eq_self.mpr h2]
    by_cases hz : first.z = 0
    · simp [perform_regression_analysis, hz]
    · have hpts : dropna (toXY first.pressure first.z (first :: (d1x ++ bad :: d2))) =
          dropna (toXY first.pressure first.z (first :: (d1x ++ d2))) := by
        rw [dropna_toXY, dropna_toXY, hdrop, hpre]
      have hA := perform_eq_of_cons ⟨some (first :: (d1x ++ bad :: d2)), g1, g2, g3⟩
        first (d1x ++ bad :: d2) rfl hz
      have hB := perform_eq_of_cons ⟨some (first :: (d1x ++ d2)), g1, g2, g3⟩
        first (d1x ++ d2) rfl hz
      rw [hpts, hdrop] at hA
      rw [hpre] at hB
      by_cases hx : sumXX (dropna (toXY first.pressure first.z (first :: (d1x ++ d2)))) = 0
      · rw [if_pos hx] at hA hB
        rw [hA, hB]
        simp
      · rw [if_neg hx] at hA hB
        rw [hA, hB]
        simp

/-- Witness for the amended C9: first row numeric, the non-numeric
CumProduction cell in the third row, instantiating both the length clause
and the not-first results clause. -/
theorem exclusion_one_fewer_entry_and_prefilter_equivalence_witness :
    (dropna (engineTransform (([⟨3000, 1, some 1000⟩, ⟨2500, 1, some 1200⟩] : Dataset) ++
        (⟨2000, 1, none⟩ : ProductionRecord) :: [⟨1000, 1, some 1500⟩]))).length + 1 =
      (([⟨3000, 1, some 1000⟩, ⟨2500, 1, some 1200⟩] : Dataset) ++
        (⟨2000, 1, none⟩ : ProductionRecord) :: [⟨1000, 1, some 1500⟩]).length ∧
    ((perform_regression_analysis
        ⟨some (([⟨3000, 1, some 1000⟩, ⟨2500, 1, some 1200⟩] : Dataset) ++
          (⟨2000, 1, none⟩ : ProductionRecord) :: [⟨1000, 1, some 1500⟩]),
         none, none, none⟩).1.slope =
      (perform_regression_analysis
        ⟨some (([⟨3000, 1, some 1000⟩, ⟨2500, 1, some 1200⟩] : Dataset) ++
          [⟨1000, 1, some 1500⟩]), none, none, none⟩).1.slope ∧
    (perform_regression_analysis
        ⟨some (([⟨3000, 1, some 1000⟩, ⟨2500, 1, some 1200⟩] : Dataset) ++
          (⟨2000, 1, none⟩ : ProductionRecord) :: [⟨1000, 1, some 1500⟩]),
         none, none, none⟩).1.estimated_ogip_scf =
      (perform_regression_analysis
        ⟨some (([⟨3000, 1, some 1000⟩, ⟨2500, 1, some 1200⟩] : Dataset) ++
          [⟨1000, 1, some 1500⟩]), none, none, none⟩).1.estimated_ogip_scf ∧
    (perform_regression_analysis
        ⟨some (([⟨3000, 1, some 1000⟩, ⟨2500, 1, some 1200⟩] : Dataset) ++
          (⟨2000, 1, none⟩ : ProductionRecord) :: [⟨1000, 1, some 1500⟩]),
         none, none, none⟩).1.r_squared =
      (perform_regression_analysis
        ⟨some (([⟨3000, 1, some 1000⟩, ⟨2500, 1, some 1200⟩] : Dataset) ++
          [⟨1000, 1, some 1500⟩]), none, none, none⟩).1.r_squared ∧
    (perform_regression_analysis
        ⟨some (([⟨3000, 1, some 1000⟩, ⟨2500, 1, some 1200⟩] : Dataset) ++
          (⟨2000, 1, none⟩ : ProductionRecord) :: [⟨1000, 1, some 1500⟩]),
         none, none, none⟩).2 =
      (perform_regression_analysis
        ⟨some (([⟨3000, 1, some 1000⟩, ⟨2500, 1, some 1200⟩] : Dataset) ++
          [⟨1000, 1, some 1500⟩]), none, none, none⟩).2) :=
  ⟨(exclusion_one_fewer_entry_and_prefilter_equivalence ⟨2000, 1, none⟩
      [⟨3000, 1, some 1000⟩, ⟨2500, 1, some 1200⟩] [⟨1000, 1, some 1500⟩] none none none
      (by intro r hr; simp at hr; rcases hr with rfl | rfl <;> rfl)
      (by intro r hr; simp at hr; subst hr; rfl) rfl).1,
   (exclusion_one_fewer_entry_and_prefilter_equivalence ⟨2000, 1, none⟩
      [⟨3000, 1, some 1000⟩, ⟨2500, 1, some 1200⟩] [⟨1000, 1, some 1500⟩] none none none
      (by intro r hr; simp at hr; rcases hr with rfl | rfl <;> rfl)
      (by intro r hr; simp at hr; subst hr; rfl) rfl).2
     ⟨3000, 1, some 1000⟩ [⟨2500, 1, some 1200⟩] rfl⟩

/-- Claim C10: when the engine takes the degenerate branch (Σx² = 0 after
filtering), the module-level result globals slope, estimated_ogip_scf and
r_squared are left unchanged; hence if a previous invocation succeeded,
save_report afterwards still serializes those previous, now-stale results
(same report as before, no error and no staleness indication). -/
theorem degenerate_branch_leaves_stale_report (st : GlobalState) (d : Dataset)
    (first : ProductionRecord) (rest : Dataset)
    (hdata : st.production_data = some d) (hd : d = first :: rest) (hz : first.z ≠ 0)
    (hdeg : sumXX (dropna (toXY first.pressure first.z d)) = 0)
    (hprev : st.estimated_ogip_scf.isSome) :
    (perform_regression_analysis st).1.slope = st.slope ∧
    (perform_regression_analysis st).1.estimated_ogip_scf = st.estimated_ogip_scf ∧
    (perform_regression_analysis st).1.r_squared = st.r_squared ∧
    save_report (perform_regression_analysis st).1 = save_report st ∧
    (save_report (perform_regression_analysis st).1).isSome := by
  subst hd
  have h1 := perform_eq_of_cons st first rest hdata hz
  rw [if_pos hdeg] at h1
  rw [h1]
  obtain ⟨v, hv⟩ := Option.isSome_iff_exists.mp hprev
  exact ⟨rfl, rfl, rfl, rfl, by simp [save_report, hv]⟩

/-- Witness for C10: a state holding the results of an earlier successful
run (slope 2, OGIP 42, R² 1) and a now-degenerate flat dataset. -/
theorem degenerate_branch_leaves_stale_report_witness :
    (perform_regression_analysis
      { production_data := some [⟨3000, 1, some 1⟩, ⟨3000, 1, some 2⟩],
        estimated_ogip_scf := some 42, slope := some 2, r_squared := some 1 }).1.slope =
      ({ production_data := some [⟨3000, 1, some 1⟩, ⟨3000, 1, some 2⟩],
         estimated_ogip_scf := some 42, slope := some 2, r_squared := some 1 } :
        GlobalState).slope ∧
    (perform_regression_analysis
      { production_data := some [⟨3000, 1, some 1⟩, ⟨3000, 1, some 2⟩],
        estimated_ogip_scf := some 42, slope := some 2,
        r_squared := some 1 }).1.estimated_ogip_scf =
      ({ production_data := some [⟨3000, 1, some 1⟩, ⟨3000, 1, some 2⟩],
         estimated_ogip_scf := some 42, slope := some 2, r_squared := some 1 } :
        GlobalState).estimated_ogip_scf ∧
    (perform_regression_analysis
      { production_data := some [⟨3000, 1, some 1⟩, ⟨3000, 1, some 2⟩],
        estimated_ogip_scf := some 42, slope := some 2, r_squared := some 1 }).1.r_squared =
      ({ production_data := some [⟨3000, 1, some 1⟩, ⟨3000, 1, some 2⟩],
         estimated_ogip_scf := some 42, slope := some 2, r_squared := some 1 } :
        GlobalState).r_squared ∧
    save_report (perform_regression_analysis
      { production_data := some [⟨3000, 1, some 1⟩, ⟨3000, 1, some 2⟩],
        estimated_ogip_scf := some 42, slope := some 2, r_squared := some 1 }).1 =
      save_report
        ({ production_data := some [⟨3000, 1, some 1⟩, ⟨3000, 1, some 2⟩],
           estimated_ogip_scf := some 42, slope := some 2, r_squared := some 1 } :
          GlobalState) ∧
    (save_report (perform_regression_analysis
      { production_data := some [⟨3000, 1, some 1⟩, ⟨3000, 1, some 2⟩],
        estimated_ogip_scf := some 42, slope := some 2, r_squared := some 1 }).1).isSome :=
  degenerate_branch_leaves_stale_report
    { production_data := some [⟨3000, 1, some 1⟩, ⟨3000, 1, some 2⟩],
      estimated_ogip_scf := some 42, slope := some 2, r_squared := some 1 }
    [⟨3000, 1, some 1⟩, ⟨3000, 1, some 2⟩] ⟨3000, 1, some 1⟩ [⟨3000, 1, some 2⟩] rfl rfl
    (by norm_num)
    (by norm_num [sumXX, dropna, toXY, xval, List.filterMap_cons, List.filterMap_nil]) rfl
